import Mathlib

/-!
Shallow embedding of the matching-service task list manager
(`service/matching/taskListManager.go`) of the temporal repository,
together with small models of the pieces of the matching layer that the
manager drives (the retry wrapper, the poller registry, the child context
construction, the forwarder attachment decision, and the user data
manager's update gate).

Go machine integers are modelled as `Int`; durations are in milliseconds;
opaque payloads are `Nat`; Go errors are an explicit inductive type; Go
`(value, error)` returns are `Except`.
-/

namespace Spec2Proof

/-- Classes of Go error relevant to the manager: `conditionFailed` is
`*persistence.ConditionFailedError`, `transient` is any error accepted by
`common.IsPersistenceTransientError`, `remoteSyncMatchFailed` is the fixed
`errRemoteSyncMatchFailed`, `namespaceNotFound` a namespace cache lookup
failure, `other` everything else. -/
inductive Err where
  | conditionFailed
  | transient
  | remoteSyncMatchFailed
  | namespaceNotFound
  | other (code : Nat)
deriving DecidableEq, Repr

/-- Mirrors `var errRemoteSyncMatchFailed = errors.New("remote sync match failed")`. -/
def errRemoteSyncMatchFailed : Err := .remoteSyncMatchFailed

/-- Mirrors `common.IsPersistenceTransientError`: true exactly on the
transient class (timeouts, service busy, unavailable). -/
def isPersistenceTransientError : Err → Bool
  | .transient => true
  | _ => false

/-- The retry classifier installed by `executeWithRetry` (lines 481-487 of
taskListManager.go): a `ConditionFailedError` is never retryable, anything
else is retryable iff it is a persistence transient error. -/
def execRetryable : Err → Bool
  | .conditionFailed => false
  | e => isPersistenceTransientError e

/-- Modelled from the spec: `backoff.Retry` (not under src/) retries the
operation with bounded exponential backoff while the classifier accepts the
error, and returns the last error otherwise. `fuel` bounds the number of
retries; `attempt` indexes the invocation so a stateful operation may
behave differently on each try; the operation also threads a state `σ`
recording its side effects. -/
def retryLoop {ε σ α : Type} (op : Nat → σ → Except ε α × σ) (retryable : ε → Bool)
    (attempt : Nat) (fuel : Nat) (s : σ) : Except ε α × σ :=
  match op attempt s with
  | (.ok a, s2) => (.ok a, s2)
  | (.error e, s2) =>
    match fuel with
    | 0 => (.error e, s2)
    | f + 1 =>
      if retryable e then retryLoop op retryable (attempt + 1) f s2
      else (.error e, s2)

/-- In-memory lifecycle state of one `taskListManagerImpl`: the `stopped`
int32 flag, whether `shutdownCh` has been closed, whether the writer and
reader have been stopped, and whether the manager is still registered in
the engine's task list map. -/
structure MgrState where
  stopped : Bool
  shutdownClosed : Bool
  writerStopped : Bool
  readerStopped : Bool
  inRegistry : Bool
deriving DecidableEq, Repr

/-- Mirrors `Stop` (lines 209-219): the CAS on `stopped` makes every call
after the first a no-op; the first call closes `shutdownCh`, stops the
writer and the reader, and removes the manager from the engine registry
(the source calls `removeTaskListManager` twice; removal from a map is
idempotent, so the effect is a single removal). -/
def stopMgr (s : MgrState) : MgrState :=
  if s.stopped then s
  else { stopped := true, shutdownClosed := true, writerStopped := true,
         readerStopped := true, inRegistry := false }

/-- Mirrors `executeWithRetry` (lines 472-495): run the operation under
`retryLoop` with the `execRetryable` classifier, and if the final error is
a `ConditionFailedError`, call `Stop` on the manager before returning the
error to the caller. -/
def executeWithRetry {σ α : Type} (mgr : MgrState) (op : Nat → σ → Except Err α × σ)
    (fuel : Nat) (s : σ) : MgrState × (Except Err α × σ) :=
  let r := retryLoop op execRetryable 0 fuel s
  match r.1 with
  | .error .conditionFailed => (stopMgr mgr, r)
  | _ => (mgr, r)

/-- A `*persistenceblobs.TaskInfo`: the namespace id and an opaque payload
standing for the workflow execution / schedule data. It carries no task id;
ids are allocated by the task writer at append time. -/
structure TaskInfo where
  namespaceId : String
  payload : Nat
deriving DecidableEq, Repr

/-- A `*persistenceblobs.AllocatedTaskInfo`: a task info wrapped with a
task id. -/
structure AllocatedTaskInfo where
  data : TaskInfo
  taskId : Int
deriving DecidableEq, Repr

/-- `addTaskParams` (lines 62-67). -/
structure AddTaskParams where
  taskInfo : TaskInfo
  source : Nat
  forwardedFrom : String
deriving DecidableEq, Repr

/-- A namespace cache entry, reduced to the one bit that `AddTask` and
`getTask` consult: whether `GetNamespaceNotActiveErr()` returns non-nil. -/
structure NamespaceEntry where
  notActive : Bool
deriving DecidableEq, Repr

/-- Fake task id used to wrap a task for sync match (line 58). -/
def syncMatchTaskId : Int := -137

/-- Time budget for an empty task to propagate back to the poll handler
(line 55), in milliseconds. -/
def returnEmptyTaskTimeBudget : Int := 1000

/-- Max time we are willing to wait for a sync match (line 128), in
milliseconds. -/
def maxSyncMatchWaitTime : Int := 200

/-- The `time.Second` tailroom `trySyncMatch` passes to `newChildContext`
(line 498), in milliseconds. -/
def oneSecondMs : Int := 1000

/-- Observable calls one `AddTask` invocation makes on its collaborators:
the `TaskInfo`s handed to `taskWriter.appendTask` and the wrapped tasks
handed to `matcher.Offer`. -/
structure Effects where
  appendCalls : List TaskInfo
  offered : List AllocatedTaskInfo
deriving DecidableEq, Repr

/-- The environment one attempt of the `AddTask` operation runs against:
the namespace cache lookup, the outcome `matcher.Offer` would report for
the sync-match attempt, and the outcome `taskWriter.appendTask` would
report. -/
structure AddTaskEnv where
  getNamespace : String → Except Err NamespaceEntry
  offerMatched : Bool
  offerErr : Option Err
  appendResult : Except Err Unit

/-- One attempt of the closure `AddTask` passes to `executeWithRetry`
(lines 227-253), threading the captured `syncMatch` variable and the
accumulated collaborator calls: look the namespace up; if it is not
active, append durably with `syncMatch := false`; otherwise run
`trySyncMatch` (offer the task wrapped with `syncMatchTaskId`); on a
match return its error; otherwise fail with `errRemoteSyncMatchFailed`
when the task was forwarded from a child, else append durably. -/
def addTaskOp (env : Nat → AddTaskEnv) (params : AddTaskParams)
    (attempt : Nat) (st : Bool × Effects) : Except Err Unit × (Bool × Effects) :=
  let e := env attempt
  let sm := st.1
  let eff := st.2
  match e.getNamespace params.taskInfo.namespaceId with
  | .error er => (.error er, (sm, eff))
  | .ok entry =>
    if entry.notActive then
      let eff2 := { eff with appendCalls := eff.appendCalls ++ [params.taskInfo] }
      (e.appendResult, (false, eff2))
    else
      let offeredTask : AllocatedTaskInfo := ⟨params.taskInfo, syncMatchTaskId⟩
      let eff1 := { eff with offered := eff.offered ++ [offeredTask] }
      if e.offerMatched then
        (match e.offerErr with
         | none => .ok ()
         | some er => .error er, (true, eff1))
      else if params.forwardedFrom ≠ "" then
        (.error errRemoteSyncMatchFailed, (false, eff1))
      else
        let eff2 := { eff1 with appendCalls := eff1.appendCalls ++ [params.taskInfo] }
        (e.appendResult, (false, eff2))

/-- What `AddTask` leaves behind: the returned `syncMatch` flag and error,
the accumulated collaborator calls, the manager state after the possible
condition-failed `Stop`, and whether the task reader was signalled. -/
structure AddTaskOut where
  syncMatch : Bool
  result : Except Err Unit
  effects : Effects
  mgr : MgrState
  readerSignalled : Bool
deriving Repr

/-- Mirrors `AddTask` (lines 224-258): run the operation through
`executeWithRetry`, and signal the task reader exactly when no error is
returned. -/
def addTask (mgr : MgrState) (env : Nat → AddTaskEnv) (params : AddTaskParams)
    (fuel : Nat) : AddTaskOut :=
  let r := executeWithRetry mgr (addTaskOp env params) fuel (false, ⟨[], []⟩)
  { syncMatch := r.2.2.1
    result := r.2.1
    effects := r.2.2.2
    mgr := r.1
    readerSignalled := match r.2.1 with | .ok _ => true | .error _ => false }

/-- A task id block (lines 451-456): `start` and `end` of the range owned
under one rangeID (`end` is a Lean keyword, hence `endId`). -/
structure TaskIDBlock where
  start : Int
  endId : Int
deriving DecidableEq, Repr

/-- Mirrors `rangeIDToTaskIDBlock` (lines 451-456). -/
def rangeIDToTaskIDBlock (rangeSize : Int) (rangeID : Int) : TaskIDBlock :=
  { start := (rangeID - 1) * rangeSize + 1, endId := rangeID * rangeSize }

/-- Modelled from the spec: the task writer (taskWriter.go is not under
src/) allocates each durable task id sequentially from the current
`TaskIDBlock`, so a durably stored id always lies inside the block of some
rangeID ≥ 1. -/
def idInBlock (b : TaskIDBlock) (id : Int) : Prop :=
  b.start ≤ id ∧ id ≤ b.endId

instance (b : TaskIDBlock) (id : Int) : Decidable (idInBlock b id) := by
  unfold idInBlock; infer_instance

/-- A Go `context.Context`, reduced to what `newChildContext` consults:
whether it has been cancelled explicitly, and its absolute deadline, if
any (milliseconds). -/
structure GoContext where
  cancelled : Bool
  deadline : Option Int
deriving DecidableEq, Repr

/-- Whether `<-ctx.Done()` would fire at time `now`: the context was
cancelled, or its deadline has passed. -/
def ctxDone (now : Int) (c : GoContext) : Bool :=
  c.cancelled || (match c.deadline with
                  | some d => d ≤ now
                  | none => false)

/-- Result of `newChildContext`: either the parent context itself together
with a no-op cancel function, or a fresh child built by
`context.WithTimeout` with the recorded timeout and a real cancel. -/
inductive ChildCtx where
  | passthrough (parent : GoContext)
  | withTimeout (child : GoContext) (timeout : Int)
deriving DecidableEq, Repr

/-- Mirrors `context.WithTimeout(parent, t)`: the child's deadline is
`now + t`, clipped by the parent's own deadline. -/
def withTimeoutCtx (parent : GoContext) (now t : Int) : GoContext :=
  { cancelled := parent.cancelled
    deadline := some (match parent.deadline with
                      | some d => min d (now + t)
                      | none => now + t) }

/-- The timeout carried by the context a `ChildCtx` hands to its user:
`none` for a passthrough of a deadline-free parent (no timer at all),
otherwise the remaining time to the deadline. -/
def childTimeout (now : Int) : ChildCtx → Option Int
  | .passthrough p => (p.deadline).map (fun d => d - now)
  | .withTimeout c _ => (c.deadline).map (fun d => d - now)

/-- Whether the cancel function returned alongside the context is the
no-op `func() {}` of the already-done branch. -/
def cancelIsNoop : ChildCtx → Bool
  | .passthrough _ => true
  | .withTimeout _ _ => false

/-- Mirrors `newChildContext` (lines 518-537): return the parent and a
no-op cancel when the parent is already done; otherwise derive the child
timeout, shrinking it to `max 0 (deadline - now - tailroom)` when that
remainder is below the requested timeout. -/
def newChildContext (now : Int) (parent : GoContext) (timeout tailroom : Int) : ChildCtx :=
  if ctxDone now parent then .passthrough parent
  else
    match parent.deadline with
    | none => .withTimeout (withTimeoutCtx parent now timeout) timeout
    | some d =>
      let remaining := d - now - tailroom
      let t := if remaining < timeout then max 0 remaining else timeout
      .withTimeout (withTimeoutCtx parent now t) t

/-- The child context `trySyncMatch` (line 498) passes to `matcher.Offer`:
`newChildContext(ctx, maxSyncMatchWaitTime, time.Second)`. -/
def trySyncMatchChildCtx (now : Int) (parent : GoContext) : ChildCtx :=
  newChildContext now parent maxSyncMatchWaitTime oneSecondMs

/-- The outstanding-polls side of the manager: `outstandingPollsMap`
(pollerID → cancel handle) plus the set of cancel handles that have been
fired. Handles stand for the non-nil `context.CancelFunc` values stored by
`getTask`. -/
structure PollerRegistry where
  outstandingPollsMap : List (String × Nat)
  fired : List Nat
deriving DecidableEq, Repr

/-- Association lookup in the outstanding-polls map. -/
def lookupPoll : List (String × Nat) → String → Option Nat
  | [], _ => none
  | (k, v) :: rest, p => if k = p then some v else lookupPoll rest p

/-- Mirrors `CancelPoller` (lines 347-355): look the poller id up under the
lock; fire the cancel handle only when the lookup succeeds. The map itself
is never modified here (entries are removed by `getTask`'s deferred
cleanup). -/
def cancelPoller (st : PollerRegistry) (pollerID : String) : PollerRegistry :=
  match lookupPoll st.outstandingPollsMap pollerID with
  | some h => { st with fired := st.fired ++ [h] }
  | none => st

/-- Which matcher entry point a `getTask` call ended up polling. -/
inductive PolledChannel where
  | queryOnly
  | regular
deriving DecidableEq, Repr

/-- Environment one `getTask` call runs against: the namespace cache
lookup for this task list's namespace, and the task the chosen matcher
poll would deliver. -/
structure GetTaskEnv where
  getNamespace : Except Err NamespaceEntry
  pollResult : Except Err Nat
  queryPollResult : Except Err Nat

/-- What `getTask` leaves behind: which channel was polled (`none` when
the namespace lookup failed first), the returned task or error, whether
`matcher.UpdateRatelimit` ran, and the outstanding-polls map after the
deferred removal. -/
structure GetTaskOut where
  polled : Option PolledChannel
  result : Except Err Nat
  rateUpdated : Bool
  mapAfter : List (String × Nat)

/-- Remove every binding of a key, as Go's `delete` leaves the map after
an insert of the same key. -/
def erasePoll (m : List (String × Nat)) (p : String) : List (String × Nat) :=
  m.filter (fun kv => kv.1 ≠ p)

/-- Mirrors `getTask` (lines 296-340): register the poller id (when one is
on the context) with the child cancel function and remove it on exit; look
the namespace up; update the matcher rate limit; then poll only the query
channel when the namespace is not active on this cluster, and the regular
matcher otherwise. -/
def getTask (outstanding : List (String × Nat)) (freshHandle : Nat)
    (env : GetTaskEnv) (pollerID : Option String) : GetTaskOut :=
  let registered := match pollerID with
    | some p => p != ""
    | none => false
  let mapAfter := match pollerID with
    | some p => if registered then erasePoll ((p, freshHandle) :: outstanding) p
                else outstanding
    | none => outstanding
  match env.getNamespace with
  | .error e =>
    { polled := none, result := .error e, rateUpdated := false, mapAfter := mapAfter }
  | .ok entry =>
    if entry.notActive then
      { polled := some .queryOnly, result := env.queryPollResult,
        rateUpdated := true, mapAfter := mapAfter }
    else
      { polled := some .regular, result := env.pollResult,
        rateUpdated := true, mapAfter := mapAfter }

/-- A task list id, reduced to what `isFowardingAllowed` consults.
`IsRoot` itself is defined outside src/; modelled from the spec: "The
partition with index 0 and normal kind is the root" — for a task list
name, root means partition index 0. -/
structure TaskListIDModel where
  partitionIdx : Nat
deriving DecidableEq, Repr

/-- Modelled from the spec: `taskListID.IsRoot()` holds exactly for
partition index 0. -/
def isRoot (tl : TaskListIDModel) : Bool :=
  tl.partitionIdx == 0

/-- `tasklistpb.TaskListKind`. -/
inductive TaskListKind where
  | normal
  | sticky
deriving DecidableEq, Repr

/-- Mirrors `isFowardingAllowed` (lines 539-541): forwarding is allowed
iff the partition is not the root and the kind is not sticky. -/
def isFowardingAllowed (tl : TaskListIDModel) (kind : TaskListKind) : Bool :=
  !isRoot tl && !(kind == .sticky)

/-- Mirrors `newTaskListManager` (lines 180-184): a `Forwarder` is created
and attached to the matcher exactly when `isFowardingAllowed` holds. -/
def forwarderAttached (tl : TaskListIDModel) (kind : TaskListKind) : Bool :=
  isFowardingAllowed tl kind

/-- Follows the spec's words, for comparison with `forwarderAttached`:
"Forwarding is disabled entirely when: the partition is root (no parent),
or the queue kind is sticky (sticky queues never forward), or the
configured children-per-node degree is exceeded." The degree condition is
taken as an abstract boolean input since no code under src/ computes it. -/
def forwardingDisabledSpec (tl : TaskListIDModel) (kind : TaskListKind)
    (degreeExceeded : Bool) : Bool :=
  isRoot tl || kind == .sticky || degreeExceeded

/-- `enumspb.TaskQueueType` for the user data manager model. -/
inductive TaskQueueType where
  | workflow
  | activity
deriving DecidableEq, Repr

/-- A physical task queue key, reduced to what the user data ownership
check consults: queue type, partition index and kind. -/
structure PhysicalQueueKey where
  taskType : TaskQueueType
  partitionIdx : Nat
  kind : TaskListKind
deriving DecidableEq, Repr

/-- A versioned user data blob. -/
structure VersionedUserData where
  version : Int
  data : Nat
deriving DecidableEq, Repr

/-- Errors of the user data manager model. -/
inductive UserDataErr where
  | noMutateNonRoot
  | storeErr
deriving DecidableEq, Repr

/-- The fixed typed error returned by `UpdateUserData` on a non-root
partition (asserted by `TestUserData_UpdateOnNonRootFails`). -/
def errUserDataNoMutateNonRoot : UserDataErr := .noMutateNonRoot

/-- Modelled from the spec (user_data_manager.go is not under src/): the
authority for user data is the root partition of normal kind and workflow
type; every other partition only caches. -/
def isUserDataOwner (k : PhysicalQueueKey) : Bool :=
  k.taskType == .workflow && k.partitionIdx == 0 && k.kind == .normal

/-- Modelled from the spec and `TestUserData_UpdateOnNonRootFails`:
`UpdateUserData` applies the mutator and bumps the version on the owning
root partition, and fails with the fixed `errUserDataNoMutateNonRoot` on
any other partition. -/
def updateUserData (k : PhysicalQueueKey) (mutator : Nat → Nat)
    (st : Option VersionedUserData) : Except UserDataErr (Option VersionedUserData) :=
  if isUserDataOwner k then
    match st with
    | none => .ok (some { version := 1, data := mutator 0 })
    | some v => .ok (some { version := v.version + 1, data := mutator v.data })
  else .error errUserDataNoMutateNonRoot

/-- Modelled from the spec: which user data errors a retrying caller would
retry — transient store failures are, the fixed non-root mutation error
"is never retried". -/
def udRetryable : UserDataErr → Bool
  | .noMutateNonRoot => false
  | .storeErr => true

/-- `UpdateUserData` as a state-threading operation for `retryLoop`: an
error leaves the stored user data unchanged. -/
def updateUserDataOp (k : PhysicalQueueKey) (mutator : Nat → Nat) :
    Nat → Option VersionedUserData →
      Except UserDataErr Unit × Option VersionedUserData :=
  fun _ st =>
    match updateUserData k mutator st with
    | .ok st2 => (.ok (), st2)
    | .error e => (.error e, st)

/-- A freshly started, never-stopped manager, for concrete evaluations. -/
def sampleMgr : MgrState :=
  { stopped := false, shutdownClosed := false, writerStopped := false,
    readerStopped := false, inRegistry := true }

/-- Environment with an active namespace, an offer that misses, and a
store append that succeeds. -/
def activeMissEnv : AddTaskEnv :=
  { getNamespace := fun _ => .ok { notActive := false }
    offerMatched := false
    offerErr := none
    appendResult := .ok () }

/-- Environment with an active namespace and an offer that matches. -/
def activeMatchEnv : AddTaskEnv :=
  { getNamespace := fun _ => .ok { notActive := false }
    offerMatched := true
    offerErr := none
    appendResult := .ok () }

/-- Environment whose namespace is not active on this cluster. -/
def inactiveEnv : AddTaskEnv :=
  { getNamespace := fun _ => .ok { notActive := true }
    offerMatched := false
    offerErr := none
    appendResult := .ok () }

/-- Params of a task forwarded up from a child partition. -/
def forwardedParams : AddTaskParams :=
  { taskInfo := { namespaceId := "ns1", payload := 7 }, source := 0,
    forwardedFrom := "child-partition-3" }

/-- Params of a task produced directly on this partition. -/
def plainParams : AddTaskParams :=
  { taskInfo := { namespaceId := "ns1", payload := 7 }, source := 0,
    forwardedFrom := "" }

/-- A `getTask` environment whose namespace is not active. -/
def inactiveGetEnv : GetTaskEnv :=
  { getNamespace := .ok { notActive := true }
    pollResult := .ok 1
    queryPollResult := .ok 2 }

/-- An operation that always fails with a rangeID condition-failed error. -/
def condFailOp : Nat → Unit → Except Err Unit × Unit :=
  fun _ _ => (.error .conditionFailed, ())

/-- A registry with one outstanding poll. -/
def samplePolls : PollerRegistry :=
  { outstandingPollsMap := [("p1", 5)], fired := [] }

/-- C7: Stop is idempotent — the first call on a not-yet-stopped manager
closes the shutdown channel, stops the writer and the reader and removes
the manager from the engine registry; a call on an already-stopped manager
returns immediately with the state unchanged; and stopping twice equals
stopping once. -/
theorem stop_idempotent (s : MgrState) :
    stopMgr (stopMgr s) = stopMgr s
    ∧ (s.stopped = false →
        stopMgr s = { stopped := true, shutdownClosed := true, writerStopped := true,
                      readerStopped := true, inRegistry := false })
    ∧ (s.stopped = true → stopMgr s = s) := by
  by_cases h : s.stopped <;> simp [stopMgr, h]

/-- Witness for C7: stopping a fresh manager yields the fully stopped
state, and a second stop leaves it unchanged. -/
theorem stop_idempotent_witness :
    stopMgr sampleMgr
      = { stopped := true, shutdownClosed := true, writerStopped := true,
          readerStopped := true, inRegistry := false }
    ∧ stopMgr (stopMgr sampleMgr) = stopMgr sampleMgr :=
  ⟨(stop_idempotent sampleMgr).2.1 rfl, (stop_idempotent sampleMgr).1⟩

/-- C10: CancelPoller on a poller id absent from the outstanding-polls map
is a no-op — it fires no cancel handle and leaves the registry, map
included, exactly as it was. -/
theorem cancelPoller_absent_noop (st : PollerRegistry) (pollerID : String)
    (h : lookupPoll st.outstandingPollsMap pollerID = none) :
    cancelPoller st pollerID = st := by
  unfold cancelPoller
  rw [h]

/-- Witness for C10: cancelling the unknown id p7 leaves the sample
registry untouched. -/
theorem cancelPoller_absent_noop_witness :
    cancelPoller samplePolls "p7" = samplePolls :=
  cancelPoller_absent_noop samplePolls "p7" (by decide)

/-- C9: when the parent context is already done at call time,
newChildContext returns the parent itself together with a no-op cancel
function — no shortened deadline and no new timer. -/
theorem newChildContext_done_passthrough (now : Int) (parent : GoContext)
    (timeout tailroom : Int) (h : ctxDone now parent = true) :
    newChildContext now parent timeout tailroom = .passthrough parent
    ∧ cancelIsNoop (newChildContext now parent timeout tailroom) = true := by
  simp [newChildContext, h, cancelIsNoop]

/-- Witness for C9: a cancelled parent with ample deadline is passed
through unchanged. -/
theorem newChildContext_done_passthrough_witness :
    newChildContext 0 { cancelled := true, deadline := some 30000 } 200 1000
      = .passthrough { cancelled := true, deadline := some 30000 } :=
  (newChildContext_done_passthrough 0 _ 200 1000 (by decide)).1

/-- C6 counterexample: a non-root, non-sticky partition with the
children-per-node degree exceeded. The spec-side predicate declares
forwarding disabled, yet `newTaskListManager` attaches a Forwarder, so the
claimed "exactly when" equivalence fails at this input. -/
theorem forwarding_disabled_cex :
    ¬ ((forwarderAttached { partitionIdx := 1 } .normal = false) ↔
        (forwardingDisabledSpec { partitionIdx := 1 } .normal true = true)) := by
  decide

/-- C6 amended: no Forwarder is attached to the matcher exactly when the
partition is the root or the queue kind is sticky; the configured
children-per-node degree plays no part in the attachment decision. -/
theorem forwarderAttached_iff (tl : TaskListIDModel) (kind : TaskListKind) :
    forwarderAttached tl kind = false ↔ (isRoot tl = true ∨ kind = .sticky) := by
  cases kind <;> rcases tl with ⟨n⟩ <;>
    simp [forwarderAttached, isFowardingAllowed, isRoot]

/-- C5 counterexample: a parent that was cancelled and carries no deadline
is already done, so `trySyncMatch` hands `matcher.Offer` the parent itself
— a context with no timer at all — where the claim demands an exact
200 ms timeout for every deadline-free parent. -/
theorem trySyncMatch_budget_cex :
    ctxDone 0 { cancelled := true, deadline := none } = true
    ∧ trySyncMatchChildCtx 0 { cancelled := true, deadline := none }
        = .passthrough { cancelled := true, deadline := none }
    ∧ childTimeout 0 (trySyncMatchChildCtx 0 { cancelled := true, deadline := none })
        ≠ some maxSyncMatchWaitTime := by
  decide

/-- C5 amended: whenever the parent context is not already done, the child
context `trySyncMatch` passes to `matcher.Offer` is built by
`context.WithTimeout` with timeout exactly 200 ms when the parent carries
no deadline, and `min (200 ms) (max 0 (deadline − now − 1 s))` when it
does; an already-done parent is passed through unchanged. -/
theorem trySyncMatch_budget (now : Int) (parent : GoContext)
    (hnd : ctxDone now parent = false) :
    (parent.deadline = none →
      trySyncMatchChildCtx now parent
        = .withTimeout (withTimeoutCtx parent now maxSyncMatchWaitTime) maxSyncMatchWaitTime)
    ∧ (∀ d : Int, parent.deadline = some d →
        trySyncMatchChildCtx now parent
          = .withTimeout
              (withTimeoutCtx parent now
                (min maxSyncMatchWaitTime (max 0 (d - now - oneSecondMs))))
              (min maxSyncMatchWaitTime (max 0 (d - now - oneSecondMs)))) := by
  constructor
  · intro hdl
    simp [trySyncMatchChildCtx, newChildContext, hnd, hdl]
  · intro d hdl
    have hmin : (if d - now - oneSecondMs < maxSyncMatchWaitTime
                 then max 0 (d - now - oneSecondMs)
                 else maxSyncMatchWaitTime)
        = min maxSyncMatchWaitTime (max 0 (d - now - oneSecondMs)) := by
      unfold maxSyncMatchWaitTime oneSecondMs
      split <;> omega
    simp [trySyncMatchChildCtx, newChildContext, hnd, hdl, hmin]

/-- Witness for C5 amended: a live parent whose deadline is only 500 ms
away gets a zero sync-match budget, since min 200 (max 0 (500 − 0 − 1000))
is 0. -/
theorem trySyncMatch_budget_witness :
    trySyncMatchChildCtx 0 { cancelled := false, deadline := some 500 }
      = .withTimeout
          (withTimeoutCtx { cancelled := false, deadline := some 500 } 0
            (min maxSyncMatchWaitTime (max 0 (500 - 0 - oneSecondMs))))
          (min maxSyncMatchWaitTime (max 0 (500 - 0 - oneSecondMs))) :=
  (trySyncMatch_budget 0 { cancelled := false, deadline := some 500 } (by decide)).2
    500 rfl

/-- C1: an AddTask whose params carry a non-empty forwardedFrom, under an
active namespace, whose sync-match attempt reports matched = false,
returns errRemoteSyncMatchFailed and never calls the task writer's append
— the child partition is expected to persist the task instead. -/
theorem addTask_forwarded_syncmiss (mgr : MgrState) (env : Nat → AddTaskEnv)
    (params : AddTaskParams) (fuel : Nat)
    (hfwd : params.forwardedFrom ≠ "")
    (hns : (env 0).getNamespace params.taskInfo.namespaceId = .ok { notActive := false })
    (hoffer : (env 0).offerMatched = false) :
    (addTask mgr env params fuel).result = .error errRemoteSyncMatchFailed
    ∧ (addTask mgr env params fuel).effects.appendCalls = [] := by
  have hop : addTaskOp env params 0 (false, ⟨[], []⟩)
      = (.error errRemoteSyncMatchFailed,
         (false, ⟨[], [⟨params.taskInfo, syncMatchTaskId⟩]⟩)) := by
    simp [addTaskOp, hns, hoffer, hfwd]
  cases fuel <;>
    simp [addTask, executeWithRetry, retryLoop, hop, execRetryable,
          isPersistenceTransientError, errRemoteSyncMatchFailed]

/-- Witness for C1: a forwarded task on an active namespace whose offer
misses fails with the remote-sync-match error and appends nothing. -/
theorem addTask_forwarded_syncmiss_witness :
    (addTask sampleMgr (fun _ => activeMissEnv) forwardedParams 3).result
      = .error errRemoteSyncMatchFailed
    ∧ (addTask sampleMgr (fun _ => activeMissEnv) forwardedParams 3).effects.appendCalls
      = [] :=
  addTask_forwarded_syncmiss sampleMgr (fun _ => activeMissEnv) forwardedParams 3
    (by decide) rfl rfl

/-- C3: under executeWithRetry, an operation returning a rangeID
condition-failed error is never retried — the loop returns that error at
once, whatever fuel remains — and the manager's Stop runs before the error
is returned, so the returned manager state carries the stopped flag that
gates this instance. -/
theorem executeWithRetry_condition_failed {σ α : Type} (mgr : MgrState)
    (op : Nat → σ → Except Err α × σ) (k fuel : Nat) (s sk : σ)
    (hk : (op k sk).1 = .error .conditionFailed)
    (h0 : (op 0 s).1 = .error .conditionFailed) :
    retryLoop op execRetryable k fuel sk = (.error .conditionFailed, (op k sk).2)
    ∧ executeWithRetry mgr op fuel s
        = (stopMgr mgr, (.error .conditionFailed, (op 0 s).2))
    ∧ (stopMgr mgr).stopped = true := by
  have key : ∀ (j fuel2 : Nat) (s2 : σ), (op j s2).1 = .error .conditionFailed →
      retryLoop op execRetryable j fuel2 s2 = (.error .conditionFailed, (op j s2).2) := by
    intro j fuel2 s2 h
    rcases hop2 : op j s2 with ⟨r, t⟩
    rw [hop2] at h
    simp only at h
    subst h
    cases fuel2 <;>
      simp [retryLoop, hop2, execRetryable, isPersistenceTransientError]
  refine ⟨key k fuel sk hk, ?_, ?_⟩
  · simp [executeWithRetry, key 0 fuel s h0]
  · by_cases h : mgr.stopped <;> simp [stopMgr, h]

/-- Witness for C3: an always-condition-failed operation makes
executeWithRetry stop the fresh manager and surface the error with fuel
left over. -/
theorem executeWithRetry_condition_failed_witness :
    retryLoop condFailOp execRetryable 2 5 () = (.error .conditionFailed, ())
    ∧ executeWithRetry sampleMgr condFailOp 5 ()
        = (stopMgr sampleMgr, (.error .conditionFailed, ()))
    ∧ (stopMgr sampleMgr).stopped = true :=
  executeWithRetry_condition_failed sampleMgr condFailOp 2 5 () () rfl rfl

/-- C4: when the namespace is not active on this cluster, AddTask goes
straight to a durable append — the matcher is never offered the task and
the returned syncMatch flag is false — and getTask polls only the query
channel, never the regular task channel. -/
theorem not_active_spill_and_query_only (mgr : MgrState) (e : AddTaskEnv)
    (params : AddTaskParams) (fuel : Nat) (ge : GetTaskEnv)
    (outstanding : List (String × Nat)) (freshHandle : Nat) (pollerID : Option String)
    (hns : e.getNamespace params.taskInfo.namespaceId = .ok { notActive := true })
    (happ : e.appendResult = .ok ())
    (hg : ge.getNamespace = .ok { notActive := true }) :
    (addTask mgr (fun _ => e) params fuel).syncMatch = false
    ∧ (addTask mgr (fun _ => e) params fuel).effects.offered = []
    ∧ (addTask mgr (fun _ => e) params fuel).effects.appendCalls = [params.taskInfo]
    ∧ (getTask outstanding freshHandle ge pollerID).polled = some .queryOnly := by
  have hop : addTaskOp (fun _ => e) params 0 (false, ⟨[], []⟩)
      = (.ok (), (false, ⟨[params.taskInfo], []⟩)) := by
    simp [addTaskOp, hns, happ]
  refine ⟨?_, ?_, ?_, ?_⟩
  all_goals
    first
    | (cases fuel <;> simp [addTask, executeWithRetry, retryLoop, hop])
    | simp [getTask, hg]

/-- Witness for C4: on the inactive-namespace environments, AddTask spills
the plain task durably without any offer and getTask serves queries
only. -/
theorem not_active_spill_and_query_only_witness :
    (addTask sampleMgr (fun _ => inactiveEnv) plainParams 3).syncMatch = false
    ∧ (addTask sampleMgr (fun _ => inactiveEnv) plainParams 3).effects.offered = []
    ∧ (addTask sampleMgr (fun _ => inactiveEnv) plainParams 3).effects.appendCalls
        = [plainParams.taskInfo]
    ∧ (getTask [] 9 inactiveGetEnv (some "p1")).polled = some .queryOnly :=
  not_active_spill_and_query_only sampleMgr inactiveEnv plainParams 3 inactiveGetEnv
    [] 9 (some "p1") rfl rfl rfl

/-- C8: on every partition other than the root normal workflow partition,
UpdateUserData fails with the fixed typed error errUserDataNoMutateNonRoot,
the error is classified non-retryable so a retrying caller gives up at
once, and the stored user data is left unchanged. -/
theorem updateUserData_non_root (k : PhysicalQueueKey) (mutator : Nat → Nat)
    (st : Option VersionedUserData) (fuel : Nat)
    (h : isUserDataOwner k = false) :
    updateUserData k mutator st = .error errUserDataNoMutateNonRoot
    ∧ udRetryable errUserDataNoMutateNonRoot = false
    ∧ retryLoop (updateUserDataOp k mutator) udRetryable 0 fuel st
        = (.error errUserDataNoMutateNonRoot, st) := by
  have h1 : updateUserData k mutator st = .error errUserDataNoMutateNonRoot := by
    simp [updateUserData, h]
  have hop : updateUserDataOp k mutator 0 st = (.error errUserDataNoMutateNonRoot, st) := by
    simp [updateUserDataOp, h1]
  refine ⟨h1, rfl, ?_⟩
  cases fuel <;> simp [retryLoop, hop, udRetryable, errUserDataNoMutateNonRoot]

/-- Witness for C8: the activity partition 0 of the test — not the user
data owner — gets the fixed error with its cached data intact. -/
theorem updateUserData_non_root_witness :
    updateUserData { taskType := .activity, partitionIdx := 0, kind := .normal }
        (fun n => n + 1) (some { version := 3, data := 42 })
      = .error errUserDataNoMutateNonRoot
    ∧ udRetryable errUserDataNoMutateNonRoot = false
    ∧ retryLoop
        (updateUserDataOp { taskType := .activity, partitionIdx := 0, kind := .normal }
          (fun n => n + 1))
        udRetryable 0 4 (some { version := 3, data := 42 })
      = (.error errUserDataNoMutateNonRoot, some { version := 3, data := 42 }) :=
  updateUserData_non_root { taskType := .activity, partitionIdx := 0, kind := .normal }
    (fun n => n + 1) (some { version := 3, data := 42 }) 4 rfl

/-- Helper: one attempt of the AddTask operation either leaves the offered
list alone or extends it with the sync-match wrapper of this call's task,
and either leaves the append list alone or extends it with this call's raw
task info. -/
theorem addTaskOp_effects_cases (env : Nat → AddTaskEnv) (params : AddTaskParams)
    (attempt : Nat) (sm : Bool) (eff : Effects) :
    ((addTaskOp env params attempt (sm, eff)).2.2.offered = eff.offered
      ∨ (addTaskOp env params attempt (sm, eff)).2.2.offered
          = eff.offered ++ [⟨params.taskInfo, syncMatchTaskId⟩])
    ∧ ((addTaskOp env params attempt (sm, eff)).2.2.appendCalls = eff.appendCalls
      ∨ (addTaskOp env params attempt (sm, eff)).2.2.appendCalls
          = eff.appendCalls ++ [params.taskInfo]) := by
  simp only [addTaskOp]
  repeat' split
  all_goals simp

/-- Helper: the sentinel invariant on the effect lists is preserved by one
attempt of the AddTask operation. -/
theorem addTaskOp_effects_inv (env : Nat → AddTaskEnv) (params : AddTaskParams)
    (attempt : Nat) (sm : Bool) (eff : Effects)
    (hoff : ∀ t ∈ eff.offered, t.taskId = syncMatchTaskId)
    (happ : ∀ t ∈ eff.appendCalls, t = params.taskInfo) :
    (∀ t ∈ (addTaskOp env params attempt (sm, eff)).2.2.offered,
        t.taskId = syncMatchTaskId)
    ∧ (∀ t ∈ (addTaskOp env params attempt (sm, eff)).2.2.appendCalls,
        t = params.taskInfo) := by
  obtain ⟨ho, ha⟩ := addTaskOp_effects_cases env params attempt sm eff
  constructor
  · intro t ht
    rcases ho with h | h <;> rw [h] at ht
    · exact hoff t ht
    · rcases List.mem_append.1 ht with h2 | h2
      · exact hoff t h2
      · simp only [List.mem_singleton] at h2
        subst h2
        rfl
  · intro t ht
    rcases ha with h | h <;> rw [h] at ht
    · exact happ t ht
    · rcases List.mem_append.1 ht with h2 | h2
      · exact happ t h2
      · simpa using h2

/-- Helper: one-step unfolding of the retry loop, for targeted
rewriting. -/
theorem retryLoop_eq {ε σ α : Type} (op : Nat → σ → Except ε α × σ) (retryable : ε → Bool)
    (attempt fuel : Nat) (s : σ) :
    retryLoop op retryable attempt fuel s
      = (match op attempt s with
         | (.ok a, s2) => (.ok a, s2)
         | (.error e, s2) =>
           match fuel with
           | 0 => (.error e, s2)
           | f + 1 =>
             if retryable e then retryLoop op retryable (attempt + 1) f s2
             else (.error e, s2)) := by
  rw [retryLoop]

/-- Helper: across any number of retries of the AddTask operation, every
offered task carries the sync-match sentinel id and every appended value
is this call's raw task info. -/
theorem retryLoop_addTask_effects (env : Nat → AddTaskEnv) (params : AddTaskParams) :
    ∀ (fuel attempt : Nat) (sm : Bool) (eff : Effects),
      (∀ t ∈ eff.offered, t.taskId = syncMatchTaskId) →
      (∀ t ∈ eff.appendCalls, t = params.taskInfo) →
      (∀ t ∈ (retryLoop (addTaskOp env params) execRetryable
                attempt fuel (sm, eff)).2.2.offered,
          t.taskId = syncMatchTaskId)
      ∧ (∀ t ∈ (retryLoop (addTaskOp env params) execRetryable
                  attempt fuel (sm, eff)).2.2.appendCalls,
          t = params.taskInfo) := by
  intro fuel
  induction fuel with
  | zero =>
    intro attempt sm eff hoff happ
    have hinv := addTaskOp_effects_inv env params attempt sm eff hoff happ
    rcases hstep : addTaskOp env params attempt (sm, eff) with ⟨res, sm2, eff2⟩
    rw [hstep] at hinv
    rw [retryLoop_eq, hstep]
    rcases res with e | a <;> simpa using hinv
  | succ f ih =>
    intro attempt sm eff hoff happ
    have hinv := addTaskOp_effects_inv env params attempt sm eff hoff happ
    rcases hstep : addTaskOp env params attempt (sm, eff) with ⟨res, sm2, eff2⟩
    rw [hstep] at hinv
    rw [retryLoop_eq, hstep]
    rcases res with e | a
    · by_cases hr : execRetryable e = true
      · have hrec := ih (attempt + 1) sm2 eff2 hinv.1 hinv.2
        simpa [hr] using hrec
      · simp only [Bool.not_eq_true] at hr
        simpa [hr] using hinv
    · simpa using hinv

/-- Helper: executeWithRetry only decorates the retry loop's result with
the possible Stop; the result and effect state pass through unchanged. -/
theorem executeWithRetry_snd {σ α : Type} (mgr : MgrState)
    (op : Nat → σ → Except Err α × σ) (fuel : Nat) (s : σ) :
    (executeWithRetry mgr op fuel s).2 = retryLoop op execRetryable 0 fuel s := by
  simp only [executeWithRetry]
  split <;> rfl

/-- C2: the sentinel is −137; on every AddTask execution each task offered
through the sync-match path carries taskId = syncMatchTaskId while only
raw task infos (with no id) reach the task writer's append; and the
sentinel lies in no task id block of any valid rangeID, so it can never
appear in durable storage. -/
theorem syncmatch_sentinel_never_durable (mgr : MgrState) (env : Nat → AddTaskEnv)
    (params : AddTaskParams) (fuel : Nat) :
    syncMatchTaskId = -137
    ∧ (∀ t ∈ (addTask mgr env params fuel).effects.offered,
        t.taskId = syncMatchTaskId)
    ∧ (∀ t ∈ (addTask mgr env params fuel).effects.appendCalls, t = params.taskInfo)
    ∧ (∀ rangeSize rangeID : Int, 1 ≤ rangeSize → 1 ≤ rangeID →
        ¬ idInBlock (rangeIDToTaskIDBlock rangeSize rangeID) syncMatchTaskId) := by
  have heff : (addTask mgr env params fuel).effects
      = (retryLoop (addTaskOp env params) execRetryable 0 fuel (false, ⟨[], []⟩)).2.2 := by
    show (executeWithRetry mgr (addTaskOp env params) fuel (false, ⟨[], []⟩)).2.2.2 = _
    rw [executeWithRetry_snd]
  have hloop := retryLoop_addTask_effects env params fuel 0 false ⟨[], []⟩
    (by simp) (by simp)
  refine ⟨rfl, ?_, ?_, ?_⟩
  · rw [heff]; exact hloop.1
  · rw [heff]; exact hloop.2
  · intro rangeSize rangeID h1 h2 hin
    rcases hin with ⟨hlo, _⟩
    have hnn : (0 : Int) ≤ (rangeID - 1) * rangeSize :=
      mul_nonneg (by linarith) (by linarith)
    unfold rangeIDToTaskIDBlock syncMatchTaskId at hlo
    simp only at hlo
    linarith

/-- Witness for C2: with a matching poller, the one offered task carries
the sentinel id, and the sentinel misses the first block of a 100000-wide
range. -/
theorem syncmatch_sentinel_witness :
    (∀ t ∈ (addTask sampleMgr (fun _ => activeMatchEnv) plainParams 2).effects.offered,
        t.taskId = syncMatchTaskId)
    ∧ ¬ idInBlock (rangeIDToTaskIDBlock 100000 1) syncMatchTaskId :=
  ⟨(syncmatch_sentinel_never_durable sampleMgr (fun _ => activeMatchEnv)
      plainParams 2).2.1,
   (syncmatch_sentinel_never_durable sampleMgr (fun _ => activeMatchEnv)
      plainParams 2).2.2.2 100000 1 (by decide) (by decide)⟩

end Spec2Proof
